import Mathlib

/-!
Shallow embedding of the signed dispatch layer of `slumber/connector/ua.py`.

Python strings are modelled as Lean `String`; Python dicts used as header
maps are modelled as association lists with "later update wins on lookup"
semantics (`dictUpdate` prepends, `lookupList` takes the first match).
The ambient mutable world (thread-local username, the UTC clock, the Django
cache, and the sequence of network responses) is modelled as an explicit
state `St` threaded through every function; external collaborators
(`fost_hmac_request_signature`, `encode_multipart`, `urlencode`, `parse_qs`,
`urlparse`, `ujson.dumps`/`loads`, the fake and real HTTP clients, and the
configuration values) are fields of an environment record `Env`.
Python exceptions (the `assert` statements, `ValueError` from tuple
unpacking, and unbounded redirect recursion) are modelled with `Except`.
Every cache access, signature computation and HTTP call is recorded in an
event trace so that "no network call / no signing / no cache touch"
claims are directly observable.
-/

namespace SlumberUA

/-- An HTTP response as seen by the user agent: status code, the
`location` header (used for redirects) and the `from_cache` marker the
orchestrator sets when serving from the cache. -/
structure Response where
  status : Nat
  location : String
  from_cache : Bool
deriving DecidableEq, Repr

/-- A structured wire document (the JSON values handled by
`ujson.dumps`/`ujson.loads`). -/
inductive Doc where
  | null : Doc
  | boolean : Bool → Doc
  | num : Int → Doc
  | str : String → Doc
  | arr : List Doc → Doc
  | obj : List (String × Doc) → Doc

/-- Request bodies in `_calculate_signature` are either a Python string or
a mapping (the parsed query string / POST data). -/
inductive Body where
  | str : String → Body
  | query : List (String × String) → Body
deriving DecidableEq, Repr

/-- Observable side effects of a user-agent call. `signCall` records the
UTC timestamp consumed by `_calculate_signature`. -/
inductive Event where
  | cacheRead : String → Event
  | cacheWrite : String → Nat → Event
  | signCall : String → String → Option Nat → Event
  | netCall : String → String → Event
  | fakeCall : String → String → Event
deriving DecidableEq, Repr

/-- Header dictionaries. -/
abbrev Headers := List (String × String)

/-- The mutable world: `PER_THREAD.username`, the UTC clock (abstract
ticks; each `datetime.utcnow()` observation advances it), the number of
real network calls made so far (indexing the environment's response
stream), the Django cache contents, and the event trace. -/
structure St where
  username : Option String
  now : Nat
  netIdx : Nat
  cache : List (String × (Response × String))
  trace : List Event

/-- External collaborators and configuration, treated as black boxes
exactly where the source treats them as imports. `real i url method body
headers` is the response of the `i`-th network call of the run;
`fake method path body content_type extra_headers` is the Django test
client. -/
structure Env where
  slumber_local : String
  authn_name : Option String
  secret_key : String
  utf7 : String → String
  isoformat : Nat → String
  hmac : String → String → String → String → Headers → String → String
  encode_multipart : List (String × String) → String
  urlencode : List (String × String) → String
  parse_qs : String → List (String × String)
  urlparse_path : String → String
  urlparse_query : String → String
  dumps : Doc → String
  loads : String → Option Doc
  fake : String → String → Body → Option String → Headers → Response × String
  real : Nat → String → String → String → Headers → Response × String

/-- Python exceptions that can escape the user-agent functions. -/
inductive Err where
  | assertionError : String → Response → String → Err
  | valueError : Err
  | outOfFuel : Err
deriving DecidableEq, Repr

/-- Result type of the verb functions: the returned value (or the escaping
exception), the final contents of the function's `headers` dict, and the
final world state. -/
abbrev UAResult := Except Err (Response × Doc) × Headers × St

/-- Python truthiness of an optional string (`None` and `''` are falsy). -/
def pyTruthyStr : Option String → Bool
  | none => false
  | some s => !(s == "")

/-- Python truthiness of a structured document. -/
def docTruthy : Doc → Bool
  | Doc.null => false
  | Doc.boolean b => b
  | Doc.num n => !(n == 0)
  | Doc.str s => !(s == "")
  | Doc.arr xs => !xs.isEmpty
  | Doc.obj kvs => !kvs.isEmpty

/-- `codes or default` (an empty list is falsy in Python). -/
def pyOrList (x : Option (List Nat)) (d : List Nat) : List Nat :=
  match x with
  | none => d
  | some l => if l.isEmpty then d else l

/-- `headers or dict(Accept='application/json')` (an empty dict is falsy). -/
def pyOrHeaders (x : Option Headers) : Headers :=
  match x with
  | none => [("Accept", "application/json")]
  | some l => if l.isEmpty then [("Accept", "application/json")] else l

/-- `dict.update`: updated entries win on lookup. -/
def dictUpdate (d upd : Headers) : Headers := upd ++ d

/-- Dictionary lookup (first match wins). -/
def lookupList {α : Type} : List (String × α) → String → Option α
  | [], _ => none
  | (k, v) :: rest, key => if k = key then some v else lookupList rest key

/-- Python slicing `s[n:]`. -/
def strDrop (s : String) (n : Nat) : String := String.mk (s.data.drop n)

/-- Python `s.startswith(p)`. -/
def strStartsWith (s p : String) : Bool := p.data.isPrefixOf s.data

/-- Python `s.find(c) >= 0`. -/
def strContains (s : String) (c : Char) : Bool := s.data.contains c

/-- `_use_fake` from `ua.py`: return the local URL fragment if the request
should use the fake (in-process) HTTP client, otherwise `none`.
`url[len(slumber_local) - 1:]` keeps the character just before the end of
the prefix (the path separator when the configured root ends in `/`). -/
def _use_fake (env : Env) (url : String) : Option String :=
  if strStartsWith url env.slumber_local then
    some (strDrop url (env.slumber_local.data.length - 1))
  else if strStartsWith url "/" then
    some url
  else
    none

/-- `_parse_qs` from `ua.py`: split the query string off.  Python's
two-element unpacking of `url.split('?')` raises `ValueError` when the
URL holds more than one `?`. -/
def _parse_qs (env : Env) (url : String) : Except Err (String × List (String × String)) :=
  if strContains url '?' then
    match url.splitOn "?" with
    | [path, query_string] => Except.ok (path, env.parse_qs query_string)
    | _ => Except.error Err.valueError
  else
    Except.ok (url, [])

/-- The extra signed headers of `_calculate_signature`: the `to_sign` dict,
holding the utf-7 encoded username under `X-FOST-User` iff the acting
username is truthy. -/
def signExtras (env : Env) (username : Option String) : Headers :=
  if pyTruthyStr username then [("X-FOST-User", env.utf7 (username.getD ""))] else []

/-- Body serialization in `_calculate_signature`: strings pass through
(`body or ''`); mappings are multipart-encoded for POST/PUT and
query-string encoded otherwise. -/
def signData (env : Env) (method : String) (body : Body) : String :=
  match body with
  | Body.str s => s
  | Body.query q =>
      if method == "POST" || method == "PUT" then env.encode_multipart q
      else env.urlencode q

/-- `_calculate_signature` from `ua.py`: the signed-request header set.
`now` is the `datetime.utcnow()` observation. -/
def _calculate_signature (env : Env) (authn_name method url : String) (body : Body)
    (username : Option String) (now : Nat) : Headers :=
  let to_sign := signExtras env username
  let data := signData env method body
  let nowS := env.isoformat now ++ "Z"
  let signature := env.hmac env.secret_key method url nowS to_sign data
  ("Authorization", "FOST " ++ env.utf7 authn_name ++ ":" ++ signature) ::
  ("X-FOST-Timestamp", nowS) ::
  ("X-FOST-Headers", String.intercalate " " ("X-FOST-Headers" :: to_sign.map Prod.fst)) ::
  to_sign

/-- `_sign_request` from `ua.py`: headers to add so the request is signed,
or the empty dict when no authenticator name is configured (Python
truthiness: `None` and `''` both disable signing).  Consumes one clock
tick for the timestamp and records the signature computation. -/
def _sign_request (env : Env) (st : St) (method url : String) (body : Body) :
    Headers × St :=
  if pyTruthyStr env.authn_name then
    let authn := env.authn_name.getD ""
    let hs := _calculate_signature env authn method url body st.username st.now
    (hs, { st with now := st.now + 1,
                   trace := st.trace ++ [Event.signCall method url (some st.now)] })
  else
    ([], st)

/-- `_fake_http_headers` from `ua.py`: headers in the form the Django test
client expects. -/
def _fake_http_headers (hs : Headers) : Headers :=
  hs.map (fun kv => ("HTTP_" ++ (kv.1.toUpper.replace "-" "_"), kv.2))

/-- Decoding step shared by all four verbs: `loads(content)` with decode
failure recovered as the empty document. -/
def decodeResult (env : Env) (resp : Response) (content : String) : Response × Doc :=
  match env.loads content with
  | some d => (resp, d)
  | none => (resp, Doc.obj [])

/-- One iteration of the `for _ in range(0, 3)` loop of `_get`'s remote
branch: re-sign (`headers.update(_sign_request('GET', path, query or ''))`
— the same `headers` dict accumulates across iterations), perform the
network call, return response, content, the updated dict and the new
world state. -/
def oneAttempt (env : Env) (url path query : String) (headers : Headers) (st : St) :
    (Response × String) × Headers × St :=
  let s := _sign_request env st "GET" path (Body.str query)
  let headers1 := dictUpdate headers s.1
  let rc := env.real s.2.netIdx url "GET" "" headers1
  (rc, headers1,
   { s.2 with netIdx := s.2.netIdx + 1,
              trace := s.2.trace ++ [Event.netCall url "GET"] })

/-- The retry loop of `_get`'s remote branch, with `k` further iterations
allowed after the current one: break on an accepted status; the last
iteration's response and content survive the loop either way. -/
def attemptLoop (env : Env) (url path query : String) (codes : List Nat) :
    Nat → Headers → St → ((Response × String) × Headers × St)
  | 0, headers, st => oneAttempt env url path query headers st
  | k + 1, headers, st =>
    let a := oneAttempt env url path query headers st
    if codes.contains a.1.1.status then a
    else attemptLoop env url path query codes k a.2.1 a.2.2

/-- The tail of `_get`'s remote branch after the retry loop: the
`assert response.status in codes` protocol check, then
`if ttl: cache.set(cache_key, (response, content), ttl)`, then the body
decode. -/
def finishGet (env : Env) (url cache_key : String) (codes : List Nat) (ttl : Nat)
    (r : (Response × String) × Headers × St) : UAResult :=
  if codes.contains r.1.1.status then
    let st3 :=
      if ttl != 0 then
        { r.2.2 with cache := (cache_key, (r.1.1, r.1.2)) :: r.2.2.cache,
                     trace := r.2.2.trace ++ [Event.cacheWrite cache_key ttl] }
      else r.2.2
    (Except.ok (decodeResult env r.1.1 r.1.2), r.2.1, st3)
  else
    (Except.error (Err.assertionError url r.1.1 r.1.2), r.2.1, r.2.2)

/-- `_get` from `ua.py` (also covering the `get` wrapper).  `fuel` bounds
the redirect recursion `return get(response['location'], ttl, codes)`;
running out of fuel models Python's unbounded recursion on a redirect
loop.  The second component of the result is the final contents of this
frame's `headers` dict (the caller's own dict when the caller passed a
non-empty one). -/
def _get (env : Env) : Nat → String → Nat → Option (List Nat) → Option Headers → St → UAResult
  | 0, _, _, _, _, st => (Except.error Err.outOfFuel, [], st)
  | fuel + 1, url, ttl, codes0, headers0, st =>
    let codes := pyOrList codes0 [200]
    let headers := pyOrHeaders headers0
    match _use_fake env url with
    | some url_fragment =>
      match _parse_qs env url_fragment with
      | Except.error e => (Except.error e, headers, st)
      | Except.ok (file_spec, query) =>
        let s := _sign_request env st "GET" file_spec (Body.query query)
        let headers1 := dictUpdate headers s.1
        let rc := env.fake "GET" file_spec (Body.query query) none
          (("HTTP_HOST", "localhost:8000") :: _fake_http_headers headers1)
        let st2 := { s.2 with trace := s.2.trace ++ [Event.fakeCall "GET" file_spec] }
        if (rc.1.status == 301 || rc.1.status == 302) && !(codes.contains rc.1.status) then
          let r := _get env fuel rc.1.location ttl codes0 none st2
          (r.1, headers1, r.2.2)
        else if codes.contains rc.1.status then
          (Except.ok (decodeResult env rc.1 rc.2), headers1, st2)
        else
          (Except.error (Err.assertionError url_fragment rc.1 rc.2), headers1, st2)
    | none =>
      let cache_key := "slumber.connector.ua.get." ++ url
      let st1 := { st with trace := st.trace ++ [Event.cacheRead cache_key] }
      match lookupList st.cache cache_key with
      | none =>
        let path := env.urlparse_path url
        let query := env.urlparse_query url
        finishGet env url cache_key codes ttl
          (attemptLoop env url path query codes 2 headers st1)
      | some cached =>
        (Except.ok (decodeResult env { cached.1 with from_cache := true } cached.2),
         headers, st1)

/-- `get` from `ua.py` (delegates to `_get`). -/
def get (env : Env) (fuel : Nat) (url : String) (ttl : Nat) (codes : Option (List Nat))
    (headers : Option Headers) (st : St) : UAResult :=
  _get env fuel url ttl codes headers st

/-- `_delete` from `ua.py` (also covering the `delete` wrapper). -/
def _delete (env : Env) (url : String) (codes0 : Option (List Nat))
    (headers0 : Option Headers) (st : St) : UAResult :=
  let codes := pyOrList codes0 [200, 404, 410]
  let headers := pyOrHeaders headers0
  match _use_fake env url with
  | some url_fragment =>
    let s := _sign_request env st "DELETE" url_fragment (Body.str "")
    let headers1 := dictUpdate headers s.1
    let rc := env.fake "DELETE" url_fragment (Body.query []) none
      (("HTTP_HOST", "localhost:8000") :: ("REQUEST_METHOD", "DELETE") ::
        _fake_http_headers headers1)
    let st2 := { s.2 with trace := s.2.trace ++ [Event.fakeCall "DELETE" url_fragment] }
    if codes.contains rc.1.status then
      (Except.ok (decodeResult env rc.1 rc.2), headers1, st2)
    else
      (Except.error (Err.assertionError url_fragment rc.1 rc.2), headers1, st2)
  | none =>
    let s := _sign_request env st "DELETE" (env.urlparse_path url) (Body.str "")
    let headers1 := dictUpdate (dictUpdate headers s.1) [("Content-Type", "application/json")]
    let rc := env.real s.2.netIdx url "DELETE" "" headers1
    let st2 := { s.2 with netIdx := s.2.netIdx + 1,
                          trace := s.2.trace ++ [Event.netCall url "DELETE"] }
    if codes.contains rc.1.status then
      (Except.ok (decodeResult env rc.1 rc.2), headers1, st2)
    else
      (Except.error (Err.assertionError url rc.1 rc.2), headers1, st2)

/-- `_put` from `ua.py` (also covering the `put` wrapper). -/
def _put (env : Env) (url : String) (data : Doc) (codes0 : Option (List Nat))
    (headers0 : Option Headers) (st : St) : UAResult :=
  let codes := pyOrList codes0 [200, 201, 204]
  let headers := pyOrHeaders headers0
  let body := env.dumps data
  match _use_fake env url with
  | some url_fragment =>
    let s := _sign_request env st "PUT" url_fragment (Body.str body)
    let headers1 := dictUpdate headers s.1
    let rc := env.fake "PUT" url_fragment (Body.str body) (some "application/json")
      (("HTTP_HOST", "localhost:8000") :: ("REQUEST_METHOD", "PUT") ::
        _fake_http_headers headers1)
    let st2 := { s.2 with trace := s.2.trace ++ [Event.fakeCall "PUT" url_fragment] }
    if codes.contains rc.1.status then
      (Except.ok (decodeResult env rc.1 rc.2), headers1, st2)
    else
      (Except.error (Err.assertionError url_fragment rc.1 rc.2), headers1, st2)
  | none =>
    let s := _sign_request env st "PUT" (env.urlparse_path url) (Body.str body)
    let headers1 := dictUpdate (dictUpdate headers s.1) [("Content-Type", "application/json")]
    let rc := env.real s.2.netIdx url "PUT" body headers1
    let st2 := { s.2 with netIdx := s.2.netIdx + 1,
                          trace := s.2.trace ++ [Event.netCall url "PUT"] }
    if codes.contains rc.1.status then
      (Except.ok (decodeResult env rc.1 rc.2), headers1, st2)
    else
      (Except.error (Err.assertionError url rc.1 rc.2), headers1, st2)

/-- `_post` from `ua.py` (also covering the `post` wrapper).  `post` takes
no caller headers; `body = dumps(data) if data else ''` uses Python
truthiness of the data document. -/
def _post (env : Env) (url : String) (data : Option Doc) (codes0 : Option (List Nat))
    (st : St) : UAResult :=
  let headers : Headers := [("Accept", "application/json")]
  let body := match data with
    | some d => if docTruthy d then env.dumps d else ""
    | none => ""
  match _use_fake env url with
  | some url_fragment =>
    let s := _sign_request env st "POST" url_fragment (Body.str body)
    let headers1 := dictUpdate headers s.1
    let rc := env.fake "POST" url_fragment (Body.str body) (some "application/json")
      (("HTTP_HOST", "localhost:8000") :: _fake_http_headers headers1)
    let st2 := { s.2 with trace := s.2.trace ++ [Event.fakeCall "POST" url_fragment] }
    if (pyOrList codes0 [200]).contains rc.1.status then
      (Except.ok (decodeResult env rc.1 rc.2), headers1, st2)
    else
      (Except.error (Err.assertionError url_fragment rc.1 rc.2), headers1, st2)
  | none =>
    let s := _sign_request env st "POST" (env.urlparse_path url) (Body.str body)
    let headers1 := dictUpdate (dictUpdate headers s.1) [("Content-Type", "application/json")]
    let rc := env.real s.2.netIdx url "POST" body headers1
    let st2 := { s.2 with netIdx := s.2.netIdx + 1,
                          trace := s.2.trace ++ [Event.netCall url "POST"] }
    if (pyOrList codes0 [200]).contains rc.1.status then
      (Except.ok (decodeResult env rc.1 rc.2), headers1, st2)
    else
      (Except.error (Err.assertionError url rc.1 rc.2), headers1, st2)

/-- `for_user` from `ua.py`: run the wrapped function with
`PER_THREAD.username` set to `name`, restoring the previous value in the
`finally` clause whether or not the wrapped function raised. -/
def for_user {E α : Type} (name : String) (f : St → Except E α × St) :
    St → Except E α × St :=
  fun st =>
    let old := st.username
    let r := f { st with username := some name }
    (r.1, { r.2 with username := old })

/-- Observer used in the identity-scoping theorems: reports the current
acting username without touching the state. -/
def probeId : St → Except Unit (Option String) × St :=
  fun st => (Except.ok st.username, st)

/-- Observer that raises. -/
def probeRaise : St → Except Unit (Option String) × St :=
  fun st => (Except.error (), st)

/-- Nested-scope scenario body: run an inner `for_user "a"` scope around an
identity probe, then probe again after the inner scope exits; report both
observations. -/
def nestedProbe : St → Except Unit (Option String × Option String) × St :=
  fun st =>
    let inner := for_user "a" probeId st
    let after := probeId inner.2
    (match inner.1, after.1 with
     | Except.ok x, Except.ok y => Except.ok (x, y)
     | _, _ => Except.error (), after.2)

/-- Nested-scope scenario body whose inner scope raises: run an inner
`for_user "a"` scope around a raising function, then probe the identity
seen after the inner scope exits. -/
def nestedRaise : St → Except Unit (Option String) × St :=
  fun st =>
    let inner := for_user "a" probeRaise st
    probeId inner.2

/-- Cache events (reads and writes). -/
def isCacheEvent : Event → Bool
  | Event.cacheRead _ => true
  | Event.cacheWrite _ _ => true
  | _ => false

/-- The cache reads and writes recorded in a trace. -/
def cacheEvents (t : List Event) : List Event := t.filter isCacheEvent

/-- A headers dict carries the computed signing headers: Authorization,
timestamp, headers-list, and — when the acting username is truthy — the
username header. -/
def signedLookups (h : Headers) (username : Option String) : Prop :=
  (lookupList h "Authorization").isSome = true
  ∧ (lookupList h "X-FOST-Timestamp").isSome = true
  ∧ (lookupList h "X-FOST-Headers").isSome = true
  ∧ (pyTruthyStr username = true → (lookupList h "X-FOST-User").isSome = true)

/-- The caller's headers dict after a `get` call, modelling CPython object
identity: `headers or default` yields the caller's own dict object when it
is truthy (non-empty), and that object is what `headers.update(...)`
mutates in place — so after the call the caller's dict holds the frame's
final header contents; a falsy (empty) caller dict is replaced by a fresh
default dict and is never touched. -/
def callerHeadersAfterGet (env : Env) (fuel : Nat) (url : String) (ttl : Nat)
    (codes0 : Option (List Nat)) (caller : Headers) (st : St) : Headers :=
  if caller.isEmpty then caller
  else (_get env fuel url ttl codes0 (some caller) st).2.1

/-- The caller's headers dict after a `put` call (same aliasing model). -/
def callerHeadersAfterPut (env : Env) (url : String) (data : Doc)
    (codes0 : Option (List Nat)) (caller : Headers) (st : St) : Headers :=
  if caller.isEmpty then caller
  else (_put env url data codes0 (some caller) st).2.1

/-- The caller's headers dict after a `delete` call (same aliasing model). -/
def callerHeadersAfterDelete (env : Env) (url : String)
    (codes0 : Option (List Nat)) (caller : Headers) (st : St) : Headers :=
  if caller.isEmpty then caller
  else (_delete env url codes0 (some caller) st).2.1

/-- Concrete environment for witnesses: signing enabled, network failing
on the first call and succeeding afterwards, body decode always failing. -/
def envA : Env where
  slumber_local := "http://localhost:8000/slumber/"
  authn_name := some "service"
  secret_key := "secret"
  utf7 := fun s => s
  isoformat := fun n => Nat.repr n
  hmac := fun _ m u t _ d => m ++ "|" ++ u ++ "|" ++ t ++ "|" ++ d
  encode_multipart := fun _ => "multipart"
  urlencode := fun _ => "urlencoded"
  parse_qs := fun _ => []
  urlparse_path := fun u => u
  urlparse_query := fun _ => ""
  dumps := fun _ => "{}"
  loads := fun _ => none
  fake := fun _ p _ _ _ => ({ status := 200, location := "", from_cache := false }, p)
  real := fun i u _ _ _ =>
    ({ status := if i == 0 then 500 else 200, location := "", from_cache := false }, u)

/-- Concrete environment whose fake client always answers a 302 redirect
to a remote URL. -/
def envB : Env :=
  { envA with
    fake := fun _ _ _ _ _ =>
      ({ status := 302, location := "http://remote.example.com/r", from_cache := false },
       "redirect") }

/-- Concrete environment whose fake client always answers 200 with a body
that is not decodable. -/
def envC : Env :=
  { envA with
    fake := fun _ _ _ _ _ =>
      ({ status := 200, location := "", from_cache := false }, "not json") }

/-- Initial world for witnesses: no identity, empty cache, empty trace. -/
def st0 : St := { username := none, now := 0, netIdx := 0, cache := [], trace := [] }

/-- World whose cache already holds an entry for the remote URL used in
the cache theorems. -/
def stCached : St :=
  { st0 with
    cache := [("slumber.connector.ua.get.http://remote.example.com/x",
               ({ status := 200, location := "", from_cache := false }, "body"))] }

/-- C1: the header set emitted by `_calculate_signature` lists, in its
`X-FOST-Headers` header, its own name first followed by exactly the names
of the extra signed headers actually attached (at most `X-FOST-User`,
present iff the acting username is truthy); the attached `X-FOST-User`
value is the utf-7 encoded username, and the HMAC is computed over
exactly that extra-header map, so every listed extra header is attached
with the value that was signed. -/
theorem calculate_signature_headers_list (env : Env) (authn method url : String)
    (body : Body) (username : Option String) (now : Nat) :
    (lookupList (_calculate_signature env authn method url body username now)
        "X-FOST-Headers" =
      some (if pyTruthyStr username then "X-FOST-Headers X-FOST-User"
            else "X-FOST-Headers"))
  ∧ (lookupList (_calculate_signature env authn method url body username now)
        "X-FOST-User" =
      if pyTruthyStr username then some (env.utf7 (username.getD "")) else none)
  ∧ (lookupList (_calculate_signature env authn method url body username now)
        "Authorization" =
      some ("FOST " ++ env.utf7 authn ++ ":" ++
        env.hmac env.secret_key method url (env.isoformat now ++ "Z")
          (if pyTruthyStr username then [("X-FOST-User", env.utf7 (username.getD ""))]
           else [])
          (signData env method body))) := by
  refine ⟨?_, ?_, ?_⟩ <;>
    cases h : pyTruthyStr username <;>
      simp [_calculate_signature, signExtras, lookupList, h] <;> decide

/-- C7: when no authenticator name is configured, `_sign_request` returns
the empty header set and leaves the world untouched (no timestamp is
consumed, no signature computation is recorded): the call proceeds
unauthenticated. -/
theorem sign_request_disabled (env : Env) (st : St) (method url : String) (body : Body) :
    _sign_request { env with authn_name := none } st method url body = ([], st) := rfl

/-- C4: `for_user` runs the wrapped function with the current identity set
to the given name and restores the previous identity afterwards even when
the wrapped function raises; in the nested scenario the inner scope
observes the inner name, after the inner scope exits the outer name is
observed, and after the outer scope exits the identity is absent again —
also when the inner scope raises. -/
theorem for_user_scoping {E α : Type} (name : String) (f : St → Except E α × St)
    (st : St) :
    (for_user name f st =
      ((f { st with username := some name }).1,
       { (f { st with username := some name }).2 with username := st.username }))
  ∧ (for_user "b" nestedProbe { st with username := none } =
      (Except.ok (some "a", some "b"), { st with username := none }))
  ∧ (for_user "b" nestedRaise { st with username := none } =
      (Except.ok (some "b"), { st with username := none })) :=
  ⟨rfl, rfl, rfl⟩

/-- C9: URL classification is purely textual: a URL starting with the
configured local-root prefix (which ends in the path separator) is
classified local with the prefix stripped and the leading separator kept;
otherwise a URL starting with a bare separator is classified local
unchanged; every other URL is classified remote (`none`). -/
theorem use_fake_classification (env : Env) (p rest url : String)
    (hpre : env.slumber_local = p ++ "/") :
    (_use_fake env (env.slumber_local ++ rest) = some ("/" ++ rest))
  ∧ (strStartsWith url env.slumber_local = false → strStartsWith url "/" = true →
      _use_fake env url = some url)
  ∧ (strStartsWith url env.slumber_local = false → strStartsWith url "/" = false →
      _use_fake env url = none) := by
  have hmk : ∀ s : String, String.mk s.data = s := fun s => by cases s; rfl
  refine ⟨?_, ?_, ?_⟩
  · have hstarts : strStartsWith (env.slumber_local ++ rest) env.slumber_local = true := by
      simp [strStartsWith, String.data_append, List.isPrefixOf_iff_prefix]
    have hdata : env.slumber_local.data = p.data ++ ['/'] := by
      rw [hpre, String.data_append]
    have hdrop : strDrop (env.slumber_local ++ rest) (env.slumber_local.length - 1)
        = "/" ++ rest := by
      show strDrop (env.slumber_local ++ rest) (env.slumber_local.data.length - 1)
        = "/" ++ rest
      rw [strDrop, String.data_append, hdata]
      have h1 : (p.data ++ ['/']).length - 1 = p.data.length := by simp
      rw [h1, List.append_assoc, List.singleton_append,
        List.drop_left p.data ('/' :: rest.data),
        show ('/' :: rest.data) = ("/" ++ rest).data from rfl]
    simp [_use_fake, hstarts, hdrop]
  · intro h1 h2
    simp [_use_fake, h1, h2]
  · intro h1 h2
    simp [_use_fake, h1, h2]

/-- Witness for the classification theorem at the concrete configured
prefix `http://localhost:8000/slumber/`. -/
theorem use_fake_classification_witness :
    (_use_fake envA ("http://localhost:8000/slumber/" ++ "pizza/data/1/") =
      some ("/" ++ "pizza/data/1/"))
  ∧ (_use_fake envA "/local/path" = some "/local/path")
  ∧ (_use_fake envA "http://other.example.com/x" = none) := by
  have h1 := (use_fake_classification envA "http://localhost:8000/slumber"
    "pizza/data/1/" "/local/path" (by decide)).1
  have h2 := (use_fake_classification envA "http://localhost:8000/slumber"
    "pizza/data/1/" "/local/path" (by decide)).2.1 (by decide) (by decide)
  have h3 := (use_fake_classification envA "http://localhost:8000/slumber"
    "pizza/data/1/" "http://other.example.com/x" (by decide)).2.2 (by decide) (by decide)
  exact ⟨h1, h2, h3⟩

/-- The single retry-loop iteration in explicit form, when signing is
enabled. -/
theorem oneAttempt_eq (env : Env) (url path q authn : String)
    (hauth : env.authn_name = some authn) (hne : (authn == "") = false)
    (headers : Headers) (st : St) :
    oneAttempt env url path q headers st =
      (env.real st.netIdx url "GET" ""
         (_calculate_signature env authn "GET" path (Body.str q) st.username st.now ++ headers),
       _calculate_signature env authn "GET" path (Body.str q) st.username st.now ++ headers,
       { st with now := st.now + 1, netIdx := st.netIdx + 1,
                 trace := st.trace ++ [Event.signCall "GET" path (some st.now),
                                       Event.netCall url "GET"] }) := by
  have h2 : pyTruthyStr (some authn) = true := by
    simp [pyTruthyStr, hne]
  simp only [oneAttempt, _sign_request, hauth, h2, if_true, Option.getD_some, dictUpdate]
  simp [List.append_assoc]

/-- The `range(0, 3)` retry loop unrolled. -/
theorem attemptLoop_two (env : Env) (url path q : String) (codes : List Nat)
    (headers : Headers) (st : St) :
    attemptLoop env url path q codes 2 headers st =
      (let a1 := oneAttempt env url path q headers st
       let a2 := oneAttempt env url path q a1.2.1 a1.2.2
       let a3 := oneAttempt env url path q a2.2.1 a2.2.2
       if codes.contains a1.1.1.status then a1
       else if codes.contains a2.1.1.status then a2
       else a3) := rfl

/-- `_get` on the remote cache-miss path is the retry loop followed by the
status check, cache write and decode. -/
theorem get_remote_miss_unfold (env : Env) (fuel : Nat) (url : String) (ttl : Nat)
    (codes0 : Option (List Nat)) (headers0 : Option Headers) (st : St)
    (hremote : _use_fake env url = none)
    (hmiss : lookupList st.cache ("slumber.connector.ua.get." ++ url) = none) :
    _get env (fuel + 1) url ttl codes0 headers0 st =
      finishGet env url ("slumber.connector.ua.get." ++ url) (pyOrList codes0 [200]) ttl
        (attemptLoop env url (env.urlparse_path url) (env.urlparse_query url)
          (pyOrList codes0 [200]) 2 (pyOrHeaders headers0)
          { st with trace := st.trace ++
              [Event.cacheRead ("slumber.connector.ua.get." ++ url)] }) := by
  simp only [_get, hremote, hmiss]

set_option maxHeartbeats 1000000 in
/-- C2: on a REMOTE GET cache miss the orchestrator makes at most three
network attempts, recomputing the signature headers before each attempt
with a fresh timestamp (`st.now`, `st.now + 1`, `st.now + 2`), stops at
the first attempt whose status is accepted and returns that attempt's
response and decoded content (writing the cache entry only then, and only
when ttl is non-zero), and when all three attempts return non-accepted
statuses it raises the assertion failure carrying the url, the last
response and the last content. -/
theorem remote_get_retry (env : Env) (fuel : Nat) (url : String) (ttl : Nat)
    (codes0 : Option (List Nat)) (headers0 : Option Headers) (st : St) (authn : String)
    (hauth : env.authn_name = some authn) (hne : (authn == "") = false)
    (hremote : _use_fake env url = none)
    (hmiss : lookupList st.cache ("slumber.connector.ua.get." ++ url) = none) :
    _get env (fuel + 1) url ttl codes0 headers0 st =
      (let codes := pyOrList codes0 [200]
       let key := "slumber.connector.ua.get." ++ url
       let path := env.urlparse_path url
       let q := env.urlparse_query url
       let sig := fun t =>
         _calculate_signature env authn "GET" path (Body.str q) st.username t
       let h1 := sig st.now ++ pyOrHeaders headers0
       let rc1 := env.real st.netIdx url "GET" "" h1
       let h2 := sig (st.now + 1) ++ h1
       let rc2 := env.real (st.netIdx + 1) url "GET" "" h2
       let h3 := sig (st.now + 2) ++ h2
       let rc3 := env.real (st.netIdx + 2) url "GET" "" h3
       let ev1 := [Event.cacheRead key, Event.signCall "GET" path (some st.now),
                   Event.netCall url "GET"]
       let ev2 := ev1 ++ [Event.signCall "GET" path (some (st.now + 1)),
                   Event.netCall url "GET"]
       let ev3 := ev2 ++ [Event.signCall "GET" path (some (st.now + 2)),
                   Event.netCall url "GET"]
       let stA := fun (k : Nat) (ev : List Event) =>
         { st with now := st.now + k, netIdx := st.netIdx + k, trace := st.trace ++ ev }
       let wr := fun (k : Nat) (ev : List Event) (rc : Response × String) =>
         if ttl != 0 then
           { st with now := st.now + k, netIdx := st.netIdx + k,
                     trace := st.trace ++ ev ++ [Event.cacheWrite key ttl],
                     cache := (key, rc) :: st.cache }
         else stA k ev
       if codes.contains rc1.1.status then
         (Except.ok (decodeResult env rc1.1 rc1.2), h1, wr 1 ev1 rc1)
       else if codes.contains rc2.1.status then
         (Except.ok (decodeResult env rc2.1 rc2.2), h2, wr 2 ev2 rc2)
       else if codes.contains rc3.1.status then
         (Except.ok (decodeResult env rc3.1 rc3.2), h3, wr 3 ev3 rc3)
       else
         (Except.error (Err.assertionError url rc3.1 rc3.2), h3, stA 3 ev3)) := by
  rw [get_remote_miss_unfold env fuel url ttl codes0 headers0 st hremote hmiss,
      attemptLoop_two]
  simp only [oneAttempt_eq env url (env.urlparse_path url) (env.urlparse_query url)
    authn hauth hne]
  split_ifs <;> simp_all [finishGet, List.append_assoc]

/-- Witness for the retry theorem: with the first network call failing and
the second succeeding, the run makes exactly two network calls and its
trace shows the cache read, two sign/net pairs with distinct timestamps,
and the cache write. -/
theorem remote_get_retry_witness :
    (_get envA 1 "http://remote.example.com/x" 5 none none st0).2.2.netIdx = 2
  ∧ (_get envA 1 "http://remote.example.com/x" 5 none none st0).2.2.trace =
      [Event.cacheRead "slumber.connector.ua.get.http://remote.example.com/x",
       Event.signCall "GET" "http://remote.example.com/x" (some 0),
       Event.netCall "http://remote.example.com/x" "GET",
       Event.signCall "GET" "http://remote.example.com/x" (some 1),
       Event.netCall "http://remote.example.com/x" "GET",
       Event.cacheWrite "slumber.connector.ua.get.http://remote.example.com/x" 5] := by
  have h := remote_get_retry envA 0 "http://remote.example.com/x" 5 none none st0
    "service" rfl (by decide) (by decide) rfl
  rw [h]
  constructor <;> rfl

/-- C6: a REMOTE GET that hits the cache returns the cached response
marked `from_cache` with the decoded cached content, and leaves the world
unchanged apart from recording the cache read: no network call, no
signature computation, no clock observation. -/
theorem remote_get_cache_hit (env : Env) (fuel : Nat) (url : String) (ttl : Nat)
    (codes0 : Option (List Nat)) (headers0 : Option Headers) (st : St)
    (resp : Response) (content : String)
    (hremote : _use_fake env url = none)
    (hhit : lookupList st.cache ("slumber.connector.ua.get." ++ url) =
      some (resp, content)) :
    _get env (fuel + 1) url ttl codes0 headers0 st =
      (Except.ok (decodeResult env { resp with from_cache := true } content),
       pyOrHeaders headers0,
       { st with trace := st.trace ++
           [Event.cacheRead ("slumber.connector.ua.get." ++ url)] }) := by
  simp only [_get, hremote, hhit]

/-- Witness for the cache-hit theorem at a concrete pre-populated cache. -/
theorem remote_get_cache_hit_witness :
    (_get envA 1 "http://remote.example.com/x" 5 none none stCached).1 =
      Except.ok ({ status := 200, location := "", from_cache := true }, Doc.obj [])
  ∧ (_get envA 1 "http://remote.example.com/x" 5 none none stCached).2.2.netIdx = 0
  ∧ (_get envA 1 "http://remote.example.com/x" 5 none none stCached).2.2.trace =
      [Event.cacheRead "slumber.connector.ua.get.http://remote.example.com/x"] := by
  have h := remote_get_cache_hit envA 0 "http://remote.example.com/x" 5 none none
    stCached { status := 200, location := "", from_cache := false } "body" rfl rfl
  rw [h]
  exact ⟨rfl, rfl, rfl⟩

/-- C3 counterexample: a REMOTE GET issued with `ttl = 0` still reads the
Cache Store — and is even served from it when an entry exists — so the
cache is not used "only for calls with ttl > 0". -/
theorem cache_read_without_ttl_counterexample :
    (_get envA 1 "http://remote.example.com/x" 0 none none stCached).2.2.trace =
      [Event.cacheRead "slumber.connector.ua.get.http://remote.example.com/x"]
  ∧ (_get envA 1 "http://remote.example.com/x" 0 none none stCached).1 =
      Except.ok ({ status := 200, location := "", from_cache := true }, Doc.obj []) :=
  ⟨rfl, rfl⟩

/-- C5: a LOCAL GET whose fake-client response is 301 or 302 with that
status not in the accepted set is automatically re-issued as a GET to the
redirect target (with default headers) and that result is returned, while
a LOCAL PUT, POST, or DELETE receiving such a status never follows the
redirect and instead raises the protocol-violation assertion. -/
theorem local_redirect_policy (env : Env) (fuel : Nat) (url frag : String) (ttl : Nat)
    (codes0 codesP codesPo codesD : Option (List Nat)) (headers0 : Option Headers)
    (st : St) (d : Doc) (data0 : Option Doc) (resp : Response) (content : String)
    (hlocal : _use_fake env url = some frag)
    (hnc : strContains frag '?' = false)
    (hfake : env.fake = fun _ _ _ _ _ => (resp, content))
    (hred : resp.status = 301 ∨ resp.status = 302)
    (hnotcG : (pyOrList codes0 [200]).contains resp.status = false)
    (hnotcP : (pyOrList codesP [200, 201, 204]).contains resp.status = false)
    (hnotcPo : (pyOrList codesPo [200]).contains resp.status = false)
    (hnotcD : (pyOrList codesD [200, 404, 410]).contains resp.status = false) :
    (_get env (fuel + 1) url ttl codes0 headers0 st =
      (let s := _sign_request env st "GET" frag (Body.query [])
       let r := _get env fuel resp.location ttl codes0 none
         { s.2 with trace := s.2.trace ++ [Event.fakeCall "GET" frag] }
       (r.1, dictUpdate (pyOrHeaders headers0) s.1, r.2.2)))
  ∧ (_put env url d codesP headers0 st).1 =
      Except.error (Err.assertionError frag resp content)
  ∧ (_post env url data0 codesPo st).1 =
      Except.error (Err.assertionError frag resp content)
  ∧ (_delete env url codesD headers0 st).1 =
      Except.error (Err.assertionError frag resp content) := by
  refine ⟨?_, ?_, ?_, ?_⟩
  · rcases hred with h | h <;> rw [h] at hnotcG <;>
      simp only [_get, hlocal, _parse_qs, hnc, hfake, h, hnotcG] <;>
      simp_all
  · simp only [_put, hlocal, hfake, hnotcP]
    simp [hnotcP]
  · simp only [_post, hlocal, hfake, hnotcPo]
    simp [hnotcPo]
  · simp only [_delete, hlocal, hfake, hnotcD]
    simp [hnotcD]

/-- Witness for the redirect policy: a local GET against a 302-answering
fake client follows to the remote target and succeeds there, while PUT
and DELETE raise the assertion failure. -/
theorem local_redirect_policy_witness :
    (_get envB 2 "/local/x" 0 none none st0).1 =
      Except.ok ({ status := 200, location := "", from_cache := false }, Doc.obj [])
  ∧ (_put envB "/local/x" Doc.null none none st0).1 =
      Except.error (Err.assertionError "/local/x"
        { status := 302, location := "http://remote.example.com/r", from_cache := false }
        "redirect")
  ∧ (_delete envB "/local/x" none none st0).1 =
      Except.error (Err.assertionError "/local/x"
        { status := 302, location := "http://remote.example.com/r", from_cache := false }
        "redirect") := by
  have h := local_redirect_policy envB 1 "/local/x" "/local/x" 0 none none none none
    none st0 Doc.null none
    { status := 302, location := "http://remote.example.com/r", from_cache := false }
    "redirect" rfl rfl rfl (Or.inr rfl) (by decide) (by decide) (by decide) (by decide)
  refine ⟨?_, h.2.1, h.2.2.2⟩
  rw [h.1]
  rfl

/-- C8: for all four verbs, when the response body cannot be decoded the
call returns the real response paired with the empty document instead of
propagating the decode error. -/
theorem decode_failure_tolerance (env : Env) (fuel : Nat) (url frag : String)
    (ttl : Nat) (headers0 : Option Headers) (st : St) (d : Doc) (data0 : Option Doc)
    (resp : Response) (content : String)
    (hlocal : _use_fake env url = some frag)
    (hnc : strContains frag '?' = false)
    (hfake : env.fake = fun _ _ _ _ _ => (resp, content))
    (hstatus : resp.status = 200)
    (hloads : env.loads content = none) :
    (_get env (fuel + 1) url ttl none headers0 st).1 = Except.ok (resp, Doc.obj [])
  ∧ (_put env url d none headers0 st).1 = Except.ok (resp, Doc.obj [])
  ∧ (_post env url data0 none st).1 = Except.ok (resp, Doc.obj [])
  ∧ (_delete env url none headers0 st).1 = Except.ok (resp, Doc.obj []) := by
  refine ⟨?_, ?_, ?_, ?_⟩ <;>
    simp only [_get, _put, _post, _delete, hlocal, _parse_qs, hnc, hfake, hstatus] <;>
    simp [decodeResult, hloads, pyOrList]

/-- Witness for decode-failure tolerance: a 200 response whose body is
not decodable yields the response and the empty document. -/
theorem decode_failure_tolerance_witness :
    (_get envC 1 "/local/x" 0 none none st0).1 =
      Except.ok ({ status := 200, location := "", from_cache := false }, Doc.obj [])
  ∧ (_put envC "/local/x" Doc.null none none st0).1 =
      Except.ok ({ status := 200, location := "", from_cache := false }, Doc.obj []) := by
  have h := decode_failure_tolerance envC 0 "/local/x" "/local/x" 0 none st0 Doc.null
    none { status := 200, location := "", from_cache := false } "not json"
    rfl rfl rfl rfl rfl
  exact ⟨h.1, h.2.1⟩


/-- The world effects of `_sign_request`: cache untouched, no cache
events added, trace only extended. -/
lemma sign_request_effects (env : Env) (st : St) (m u : String) (b : Body) :
    (_sign_request env st m u b).2.cache = st.cache
  ∧ cacheEvents (_sign_request env st m u b).2.trace = cacheEvents st.trace
  ∧ List.IsPrefix st.trace (_sign_request env st m u b).2.trace := by
  cases h : pyTruthyStr env.authn_name <;>
    simp [_sign_request, h, cacheEvents, isCacheEvent, List.filter_append,
      List.prefix_append]

lemma oneAttempt_effects (env : Env) (url path q : String) (headers : Headers) (st : St) :
    (oneAttempt env url path q headers st).2.2.cache = st.cache
  ∧ cacheEvents (oneAttempt env url path q headers st).2.2.trace = cacheEvents st.trace
  ∧ List.IsPrefix st.trace (oneAttempt env url path q headers st).2.2.trace := by
  obtain ⟨c, e, p⟩ := sign_request_effects env st "GET" path (Body.str q)
  refine ⟨?_, ?_, ?_⟩
  · simpa [oneAttempt] using c
  · simp [oneAttempt, cacheEvents, List.filter_append]
    simpa [cacheEvents, isCacheEvent] using e
  · simp only [oneAttempt]
    exact p.trans (List.prefix_append _ _)

lemma attemptLoop_effects (env : Env) (url path q : String) (codes : List Nat) :
    ∀ (k : Nat) (headers : Headers) (st : St),
    (attemptLoop env url path q codes k headers st).2.2.cache = st.cache
  ∧ cacheEvents (attemptLoop env url path q codes k headers st).2.2.trace =
      cacheEvents st.trace
  ∧ List.IsPrefix st.trace (attemptLoop env url path q codes k headers st).2.2.trace := by
  intro k
  induction k with
  | zero => intro headers st; exact oneAttempt_effects env url path q headers st
  | succ k ih =>
    intro headers st
    simp only [attemptLoop]
    by_cases h : codes.contains (oneAttempt env url path q headers st).1.1.status = true
    · simp only [h, if_true]
      exact oneAttempt_effects env url path q headers st
    · simp only [h, if_false]
      obtain ⟨c1, e1, p1⟩ := oneAttempt_effects env url path q headers st
      obtain ⟨c2, e2, p2⟩ := ih (oneAttempt env url path q headers st).2.1
        (oneAttempt env url path q headers st).2.2
      exact ⟨c2.trans c1, e2.trans e1, p1.trans p2⟩

/-- C3 (amended): the Cache Store is read before every REMOTE GET network
attempt regardless of ttl; with ttl = 0 the read is the only cache
interaction and nothing is written; a protocol-violation failure never
writes the cache; and a LOCAL GET (without redirect), PUT, POST and
DELETE never read or write the cache. -/
theorem cache_usage_policy (env : Env) (fuel : Nat) (url frag : String) (ttl : Nat)
    (codes0 : Option (List Nat)) (headers0 : Option Headers) (st : St)
    (d : Doc) (data0 : Option Doc) (resp : Response) (content : String) :
    (_use_fake env url = none →
      Event.cacheRead ("slumber.connector.ua.get." ++ url) ∈
        (_get env (fuel + 1) url ttl codes0 headers0 st).2.2.trace)
  ∧ (_use_fake env url = none → ttl = 0 →
      (_get env (fuel + 1) url ttl codes0 headers0 st).2.2.cache = st.cache
      ∧ cacheEvents (_get env (fuel + 1) url ttl codes0 headers0 st).2.2.trace =
          cacheEvents st.trace ++
            [Event.cacheRead ("slumber.connector.ua.get." ++ url)])
  ∧ (_use_fake env url = none → ∀ e,
      (_get env (fuel + 1) url ttl codes0 headers0 st).1 = Except.error e →
      (_get env (fuel + 1) url ttl codes0 headers0 st).2.2.cache = st.cache
      ∧ cacheEvents (_get env (fuel + 1) url ttl codes0 headers0 st).2.2.trace =
          cacheEvents st.trace ++
            [Event.cacheRead ("slumber.connector.ua.get." ++ url)])
  ∧ (_use_fake env url = some frag → strContains frag '?' = false →
      env.fake = (fun _ _ _ _ _ => (resp, content)) →
      ((resp.status == 301 || resp.status == 302) = false) →
      cacheEvents (_get env (fuel + 1) url ttl codes0 headers0 st).2.2.trace =
          cacheEvents st.trace
      ∧ (_get env (fuel + 1) url ttl codes0 headers0 st).2.2.cache = st.cache)
  ∧ (cacheEvents (_put env url d codes0 headers0 st).2.2.trace = cacheEvents st.trace
      ∧ (_put env url d codes0 headers0 st).2.2.cache = st.cache)
  ∧ (cacheEvents (_post env url data0 codes0 st).2.2.trace = cacheEvents st.trace
      ∧ (_post env url data0 codes0 st).2.2.cache = st.cache)
  ∧ (cacheEvents (_delete env url codes0 headers0 st).2.2.trace = cacheEvents st.trace
      ∧ (_delete env url codes0 headers0 st).2.2.cache = st.cache) := by
  refine ⟨?_, ?_, ?_, ?_, ?_, ?_, ?_⟩
  · -- (A) the cache is read on every remote GET
    intro hremote
    cases hc : lookupList st.cache ("slumber.connector.ua.get." ++ url) with
    | some cached => simp [_get, hremote, hc]
    | none =>
      rw [get_remote_miss_unfold env fuel url ttl codes0 headers0 st hremote hc]
      obtain ⟨c, e, p⟩ := attemptLoop_effects env url (env.urlparse_path url)
        (env.urlparse_query url) (pyOrList codes0 [200]) 2 (pyOrHeaders headers0)
        { st with trace := st.trace ++
            [Event.cacheRead ("slumber.connector.ua.get." ++ url)] }
      have hm : Event.cacheRead ("slumber.connector.ua.get." ++ url) ∈
          (attemptLoop env url (env.urlparse_path url) (env.urlparse_query url)
            (pyOrList codes0 [200]) 2 (pyOrHeaders headers0)
            { st with trace := st.trace ++
                [Event.cacheRead ("slumber.connector.ua.get." ++ url)] }).2.2.trace := by
        exact p.subset (by simp)
      unfold finishGet
      split_ifs <;> simp [hm]
  · -- (B) with ttl = 0 the only cache interaction is the read
    intro hremote httl
    subst httl
    cases hc : lookupList st.cache ("slumber.connector.ua.get." ++ url) with
    | some cached =>
      simp [_get, hremote, hc, cacheEvents, isCacheEvent, List.filter_append]
    | none =>
      rw [get_remote_miss_unfold env fuel url 0 codes0 headers0 st hremote hc]
      obtain ⟨c, e, p⟩ := attemptLoop_effects env url (env.urlparse_path url)
        (env.urlparse_query url) (pyOrList codes0 [200]) 2 (pyOrHeaders headers0)
        { st with trace := st.trace ++
            [Event.cacheRead ("slumber.connector.ua.get." ++ url)] }
      unfold finishGet
      split_ifs <;>
        simp_all [cacheEvents, isCacheEvent, List.filter_append]
  · -- (C) an error result leaves the cache unwritten
    intro hremote e herr
    cases hc : lookupList st.cache ("slumber.connector.ua.get." ++ url) with
    | some cached =>
      simp [_get, hremote, hc] at herr
    | none =>
      rw [get_remote_miss_unfold env fuel url ttl codes0 headers0 st hremote hc] at herr ⊢
      obtain ⟨c, ev, p⟩ := attemptLoop_effects env url (env.urlparse_path url)
        (env.urlparse_query url) (pyOrList codes0 [200]) 2 (pyOrHeaders headers0)
        { st with trace := st.trace ++
            [Event.cacheRead ("slumber.connector.ua.get." ++ url)] }
      unfold finishGet at herr ⊢
      split_ifs at herr ⊢
      all_goals simp_all [cacheEvents, isCacheEvent, List.filter_append]
  · -- (D) a local GET without redirect never touches the cache
    intro hlocal hnc hfake hnr
    obtain ⟨c, ev, p⟩ := sign_request_effects env st "GET" frag (Body.query [])
    simp only [_get, hlocal, _parse_qs, hnc, hfake, hnr]
    by_cases hacc : (pyOrList codes0 [200]).contains resp.status = true <;>
      simp_all [cacheEvents, isCacheEvent, List.filter_append]
  · -- (E) _put never touches the cache
    cases hl : _use_fake env url with
    | some f =>
      obtain ⟨c, ev, p⟩ := sign_request_effects env st "PUT" f (Body.str (env.dumps d))
      simp only [_put, hl]
      split_ifs <;> simp_all [cacheEvents, isCacheEvent, List.filter_append]
    | none =>
      obtain ⟨c, ev, p⟩ := sign_request_effects env st "PUT" (env.urlparse_path url)
        (Body.str (env.dumps d))
      simp only [_put, hl]
      split_ifs <;> simp_all [cacheEvents, isCacheEvent, List.filter_append]
  · -- (F) _post never touches the cache
    cases hl : _use_fake env url with
    | some f =>
      obtain ⟨c, ev, p⟩ := sign_request_effects env st "POST" f
        (Body.str (match data0 with
          | some dd => if docTruthy dd then env.dumps dd else ""
          | none => ""))
      simp only [_post, hl]
      split_ifs <;> simp_all [cacheEvents, isCacheEvent, List.filter_append]
    | none =>
      obtain ⟨c, ev, p⟩ := sign_request_effects env st "POST" (env.urlparse_path url)
        (Body.str (match data0 with
          | some dd => if docTruthy dd then env.dumps dd else ""
          | none => ""))
      simp only [_post, hl]
      split_ifs <;> simp_all [cacheEvents, isCacheEvent, List.filter_append]
  · -- (G) _delete never touches the cache
    cases hl : _use_fake env url with
    | some f =>
      obtain ⟨c, ev, p⟩ := sign_request_effects env st "DELETE" f (Body.str "")
      simp only [_delete, hl]
      split_ifs <;> simp_all [cacheEvents, isCacheEvent, List.filter_append]
    | none =>
      obtain ⟨c, ev, p⟩ := sign_request_effects env st "DELETE" (env.urlparse_path url)
        (Body.str "")
      simp only [_delete, hl]
      split_ifs <;> simp_all [cacheEvents, isCacheEvent, List.filter_append]

/-- Witness for the cache policy at concrete inputs: the remote GET with
ttl = 0 reads but never writes, and a PUT records no cache events. -/
theorem cache_usage_policy_witness :
    Event.cacheRead "slumber.connector.ua.get.http://remote.example.com/x" ∈
      (_get envA 1 "http://remote.example.com/x" 0 none none st0).2.2.trace
  ∧ (_get envA 1 "http://remote.example.com/x" 0 none none st0).2.2.cache = []
  ∧ cacheEvents (_put envA "http://remote.example.com/x" Doc.null none none st0).2.2.trace
      = [] := by
  have h := cache_usage_policy envA 0 "http://remote.example.com/x" "/frag" 0 none
    none st0 Doc.null none { status := 200, location := "", from_cache := false } "c"
  refine ⟨h.1 (by decide), ?_, ?_⟩
  · simpa [st0] using (h.2.1 (by decide) rfl).1
  · simpa [st0] using h.2.2.2.2.1.1

/-- The headers produced by `_calculate_signature`, merged on top of any
dict contents, answer lookups for all the signing header names. -/
lemma calculate_signature_lookups (env : Env) (authn method url : String) (body : Body)
    (username : Option String) (now : Nat) (rest : Headers) :
    signedLookups (_calculate_signature env authn method url body username now ++ rest)
      username := by
  cases h : pyTruthyStr username <;>
    simp [signedLookups, _calculate_signature, signExtras, h, lookupList]

lemma calculate_signature_lookups_ct (env : Env) (authn method url : String) (body : Body)
    (username : Option String) (now : Nat) (rest : Headers) :
    signedLookups (("Content-Type", "application/json") ::
      (_calculate_signature env authn method url body username now ++ rest)) username := by
  cases h : pyTruthyStr username <;>
    simp [signedLookups, _calculate_signature, signExtras, h, lookupList]

/-- C10 counterexample: a remote GET served from the cache leaves a
caller-supplied non-empty headers dict completely untouched even though
signing is enabled — no Authorization header is added. -/
theorem caller_headers_counterexample :
    callerHeadersAfterGet envA 1 "http://remote.example.com/x" 0 none
      [("X-Custom", "1")] stCached = [("X-Custom", "1")]
  ∧ lookupList (callerHeadersAfterGet envA 1 "http://remote.example.com/x" 0 none
      [("X-Custom", "1")] stCached) "Authorization" = none :=
  ⟨rfl, rfl⟩

/-- C10 (amended): when signing is enabled and the caller passes a
non-empty headers dict, get (on a remote cache miss or a local call), put
and delete mutate that same dict in place so that it answers lookups for
the Authorization, timestamp, headers-list and (when an acting username
is set) username headers after the call; a caller-supplied empty dict is
replaced by a fresh default and left untouched.  A remote GET served from
the cache adds nothing (see the counterexample). -/
theorem caller_headers_mutation (env : Env) (fuel : Nat) (url frag : String) (ttl : Nat)
    (codes0 : Option (List Nat)) (st : St) (d : Doc) (l : Headers) (authn : String)
    (hauth : env.authn_name = some authn) (hne : (authn == "") = false)
    (hl : l.isEmpty = false) :
    (_use_fake env url = none →
      lookupList st.cache ("slumber.connector.ua.get." ++ url) = none →
      signedLookups (callerHeadersAfterGet env (fuel + 1) url ttl codes0 l st) st.username)
  ∧ (_use_fake env url = some frag → strContains frag '?' = false →
      signedLookups (callerHeadersAfterGet env (fuel + 1) url ttl codes0 l st) st.username)
  ∧ signedLookups (callerHeadersAfterPut env url d codes0 l st) st.username
  ∧ signedLookups (callerHeadersAfterDelete env url codes0 l st) st.username
  ∧ (callerHeadersAfterGet env (fuel + 1) url ttl codes0 [] st = []
      ∧ callerHeadersAfterPut env url d codes0 [] st = []
      ∧ callerHeadersAfterDelete env url codes0 [] st = []) := by
  have h2 : pyTruthyStr (some authn) = true := by simp [pyTruthyStr, hne]
  have hpy : pyOrHeaders (some l) = l := by simp [pyOrHeaders, hl]
  refine ⟨?_, ?_, ?_, ?_, ?_, ?_, ?_⟩
  · intro hremote hmiss
    simp only [callerHeadersAfterGet, hl, Bool.false_eq_true, if_false]
    rw [get_remote_miss_unfold env fuel url ttl codes0 (some l) st hremote hmiss,
        attemptLoop_two]
    simp only [oneAttempt_eq env url (env.urlparse_path url) (env.urlparse_query url)
      authn hauth hne, hpy]
    unfold finishGet
    split_ifs <;>
      exact calculate_signature_lookups env authn "GET" (env.urlparse_path url)
        (Body.str (env.urlparse_query url)) st.username _ _
  · intro hlocal hnc
    simp only [callerHeadersAfterGet, hl, Bool.false_eq_true, if_false]
    simp only [_get, hlocal, _parse_qs, hnc, Bool.false_eq_true, if_false,
      _sign_request, hauth, h2, if_true, Option.getD_some, dictUpdate, hpy]
    split_ifs <;>
      exact calculate_signature_lookups env authn "GET" frag (Body.query [])
        st.username _ _
  · cases hlu : _use_fake env url with
    | some f =>
      simp only [callerHeadersAfterPut, hl, Bool.false_eq_true, if_false]
      simp only [_put, hlu, _sign_request, hauth, h2, if_true, Option.getD_some,
        dictUpdate, hpy]
      split_ifs <;>
        exact calculate_signature_lookups env authn "PUT" f (Body.str (env.dumps d))
          st.username _ _
    | none =>
      simp only [callerHeadersAfterPut, hl, Bool.false_eq_true, if_false]
      simp only [_put, hlu, _sign_request, hauth, h2, if_true, Option.getD_some,
        dictUpdate, hpy]
      split_ifs <;>
        exact calculate_signature_lookups_ct env authn "PUT" (env.urlparse_path url)
          (Body.str (env.dumps d)) st.username _ _
  · cases hlu : _use_fake env url with
    | some f =>
      simp only [callerHeadersAfterDelete, hl, Bool.false_eq_true, if_false]
      simp only [_delete, hlu, _sign_request, hauth, h2, if_true, Option.getD_some,
        dictUpdate, hpy]
      split_ifs <;>
        exact calculate_signature_lookups env authn "DELETE" f (Body.str "")
          st.username _ _
    | none =>
      simp only [callerHeadersAfterDelete, hl, Bool.false_eq_true, if_false]
      simp only [_delete, hlu, _sign_request, hauth, h2, if_true, Option.getD_some,
        dictUpdate, hpy]
      split_ifs <;>
        exact calculate_signature_lookups_ct env authn "DELETE" (env.urlparse_path url)
          (Body.str "") st.username _ _
  · rfl
  · rfl
  · rfl

/-- Witness for the caller-headers theorem: a non-empty dict passed to a
remote-miss GET and to PUT ends up holding an Authorization entry; an
empty dict stays empty. -/
theorem caller_headers_mutation_witness :
    (lookupList (callerHeadersAfterGet envA 1 "http://remote.example.com/x" 0 none
      [("X-Custom", "1")] st0) "Authorization").isSome = true
  ∧ (lookupList (callerHeadersAfterPut envA "http://remote.example.com/x" Doc.null none
      [("X-Custom", "1")] st0) "Authorization").isSome = true
  ∧ callerHeadersAfterPut envA "http://remote.example.com/x" Doc.null none [] st0 = [] := by
  have h := caller_headers_mutation envA 0 "http://remote.example.com/x" "/frag" 0 none
    st0 Doc.null [("X-Custom", "1")] "service" rfl (by decide) rfl
  exact ⟨(h.1 (by decide) rfl).1, h.2.2.1.1, h.2.2.2.2.2.1⟩

end SlumberUA
